import Mathlib

/-!
Shallow embedding of the persistence layer of the STAT_GRAND backend
(`backend/app/database/connection.py`, `schema.py`, `crud.py`) and proofs
about its specified behaviour.

Modelling conventions:
* A SQLite row is a Lean structure; a nullable column is an `Option`.
* A JSON text cell is represented by the value it parses back to
  (`json.dumps` is injective on the stored shapes and `json.loads` is its
  left inverse); the wrapper `StoredJson` keeps the serialized and
  deserialized forms as distinct types.
* A `float32` value is represented by its 32-bit pattern (a `Nat` below
  `2 ^ 32`), so `np.ndarray.tobytes` / `np.frombuffer` are exact byte-level
  codecs (4 little-endian bytes per element, no rounding involved).
* A Python `datetime` travels to SQLite as its ISO-8601 text form and comes
  back through `datetime.fromisoformat`; it is modelled as that ISO string.
* Each CRUD method returns its Python return value together with the updated
  database state; a swallowed exception (`except: ... return False`) becomes
  an explicit branch that returns the unchanged state.
* Python's salted string hash is an unspecified function `pyhash`; the model
  is parametric in it, exactly as the code is within one process.
-/

/-- Little-endian byte expansion of one 32-bit word, as `np.float32.tobytes`
produces it on a little-endian platform. -/
def f32leBytes (x : Nat) : List Nat :=
  [x % 256, x / 256 % 256, x / 65536 % 256, x / 16777216 % 256]

/-- Byte string of a whole float32 vector (`ndarray.tobytes`). -/
def f32sToBytes (v : List Nat) : List Nat :=
  (v.map f32leBytes).flatten

/-- Reassemble 32-bit words from little-endian bytes (`np.frombuffer` with
`dtype=np.float32`).  `np.frombuffer` raises when the byte count is not a
multiple of four; every blob written by this layer is 4-byte aligned, so that
branch is never reached and a trailing fragment is simply dropped here. -/
def bytesToF32s : List Nat → List Nat
  | b0 :: b1 :: b2 :: b3 :: rest =>
      (b0 + 256 * b1 + 65536 * b2 + 16777216 * b3) :: bytesToF32s rest
  | _ => []

namespace DatabaseManager

/-- Text cell holding `json.dumps val`; represented by the parsed value. -/
structure StoredJson (α : Type) where
  val : α
deriving DecidableEq, Repr

/-- Model of `DatabaseManager.serialize_embedding`: `None` maps to `None`,
otherwise `embedding.astype(np.float32).tobytes()`.  The input list already
holds float32 bit patterns, so `astype(np.float32)` is the identity. -/
def serialize_embedding (embedding : Option (List Nat)) : Option (List Nat) :=
  match embedding with
  | none => none
  | some v => some (f32sToBytes v)

/-- Model of `DatabaseManager.deserialize_embedding`: `None` maps to `None`,
otherwise `np.frombuffer(embedding_bytes, dtype=np.float32)`. -/
def deserialize_embedding (embedding_bytes : Option (List Nat)) : Option (List Nat) :=
  match embedding_bytes with
  | none => none
  | some bs => some (bytesToF32s bs)

/-- Model of `DatabaseManager.serialize_json`: `None` maps to `None`,
otherwise `json.dumps(data)`. -/
def serialize_json {α : Type} (data : Option α) : Option (StoredJson α) :=
  match data with
  | none => none
  | some v => some ⟨v⟩

/-- Model of `DatabaseManager.deserialize_json`: `None` maps to `None`,
otherwise `json.loads(json_str)`. -/
def deserialize_json {α : Type} (json_str : Option (StoredJson α)) : Option α :=
  match json_str with
  | none => none
  | some s => some s.val

end DatabaseManager

/-- The `Occupation` dataclass (`app/models/occupation.py`).  `keywords` and
`synonyms` are annotated `List[str]` / `Dict[str, List[str]]` but, being
plain dataclass fields, can also hold `None` at runtime; both are therefore
`Option` here.  `synonyms` maps a language code to its synonym list. -/
structure Occupation where
  code : String
  title : String
  description : String
  division : String
  major_group : String
  sub_major_group : String
  minor_group : String
  unit_group : String
  keywords : Option (List String)
  synonyms : Option (List (String × List String))
  embedding : Option (List Nat) := none
  created_at : Option String := none
  updated_at : Option String := none
deriving DecidableEq, Repr

/-- One stored row of the `occupations` table (`schema.py`,
`OCCUPATIONS_TABLE`): `keywords`/`synonyms` are JSON text columns,
`embedding` is a BLOB of bytes, the timestamps are text. -/
structure OccRow where
  code : String
  title : String
  description : String
  division : String
  major_group : String
  sub_major_group : String
  minor_group : String
  unit_group : String
  keywords : Option (DatabaseManager.StoredJson (List String))
  synonyms : Option (DatabaseManager.StoredJson (List (String × List String)))
  embedding : Option (List Nat)
  created_at : Option String
  updated_at : Option String
deriving DecidableEq, Repr

/-- One stored row of the `search_queries` table.  The `results` JSON text is
opaque here (no claim inspects it, and the code never reconstructs it).  The
`processing_time` REAL column is never written by `create_query`, so its
value domain is irrelevant. -/
structure QueryRow where
  query_id : String
  original_text : String
  processed_text : Option String
  language : String
  user_id : Option String
  session_id : String
  timestamp : Option String
  results : Option String
  selected_result : Option String
  feedback_rating : Option Int
  processing_time : Option Int := none
deriving DecidableEq, Repr

/-- Database state visible to the CRUD layer.  A vector table that does not
exist (its `sqlite_master` probe finds nothing) is `none`; the native table
maps a derived integer rowid to the vector, the fallback table maps the
occupation code to the serialized blob. -/
structure DBState where
  occupations : List OccRow := []
  native_vectors : Option (List (Nat × List Nat)) := none
  fallback_vectors : Option (List (String × List Nat)) := none
  queries : List QueryRow := []
deriving DecidableEq, Repr

namespace OccupationCRUD

/-- Probe `SELECT name FROM sqlite_master WHERE name='occupation_vectors'`. -/
def is_vss_available (st : DBState) : Bool :=
  st.native_vectors.isSome

/-- Probe for the `occupation_vectors_fallback` table. -/
def is_fallback_vector_available (st : DBState) : Bool :=
  st.fallback_vectors.isSome

/-- Derived rowid for the native vector table: `hash(code) % (2**31)`.
Python's `%` on a positive modulus is Euclidean, hence `Int.emod`. -/
def vssRowid (pyhash : String → Int) (code : String) : Nat :=
  ((pyhash code) % (2 ^ 31 : Int)).toNat

/-- Model of `OccupationCRUD._insert_vector`: inserts `(rowid, embedding)`
into `occupation_vectors`; any error (missing table, rowid conflict) is
caught inside the helper and leaves the state unchanged.  The stored text
`str(embedding.tolist())` is represented by the vector itself. -/
def insert_vector (pyhash : String → Int) (st : DBState) (code : String)
    (embedding : List Nat) : DBState :=
  match st.native_vectors with
  | none => st
  | some tbl =>
      let rowid := vssRowid pyhash code
      if tbl.any (fun e => e.1 == rowid) then st
      else { st with native_vectors := some (tbl ++ [(rowid, embedding)]) }

/-- Model of `OccupationCRUD._insert_fallback_vector`:
`INSERT OR REPLACE INTO occupation_vectors_fallback(occupation_code, embedding)`.
The foreign key to `occupations(code)` is enforced (`PRAGMA foreign_keys=ON`),
so the insert fails - swallowed - when no parent row exists. -/
def insert_fallback_vector (st : DBState) (code : String)
    (embedding : List Nat) : DBState :=
  match st.fallback_vectors with
  | none => st
  | some tbl =>
      if st.occupations.any (fun r => r.code == code) then
        { st with
            fallback_vectors :=
              some (tbl.filter (fun e => !(e.1 == code)) ++ [(code, f32sToBytes embedding)]) }
      else st

/-- Truthiness of the Python bytes value `embedding_bytes`: `None` and the
empty byte string are falsy. -/
def pyTruthyBytes (b : Option (List Nat)) : Bool :=
  match b with
  | some (_ :: _) => true
  | _ => false

/-- The `params` tuple of `OccupationCRUD.create` as the stored row: each
complex field serialized exactly as the code does before the INSERT. -/
def insertParamsRow (occupation : Occupation) : OccRow :=
  { code := occupation.code
    title := occupation.title
    description := occupation.description
    division := occupation.division
    major_group := occupation.major_group
    sub_major_group := occupation.sub_major_group
    minor_group := occupation.minor_group
    unit_group := occupation.unit_group
    keywords := DatabaseManager.serialize_json occupation.keywords
    synonyms := DatabaseManager.serialize_json occupation.synonyms
    embedding := DatabaseManager.serialize_embedding occupation.embedding
    created_at := occupation.created_at
    updated_at := occupation.updated_at }

/-- Model of `OccupationCRUD.create`.  The `INSERT INTO occupations` hits the
PRIMARY KEY on `code`; a duplicate raises `IntegrityError`, which the outer
handler converts to `(False, unchanged)`.  On success the row is stored and,
when the serialized embedding is truthy, mirrored into whichever vector
table exists (native preferred); the mirror helpers swallow their own
errors, so `create` still returns `True` (`rows_affected > 0`). -/
def create (pyhash : String → Int) (st : DBState) (occupation : Occupation) :
    Bool × DBState :=
  let embedding_bytes := DatabaseManager.serialize_embedding occupation.embedding
  if st.occupations.any (fun r => r.code == occupation.code) then
    (false, st)
  else
    let st1 : DBState :=
      { st with occupations := st.occupations ++ [insertParamsRow occupation] }
    let st2 :=
      if pyTruthyBytes embedding_bytes then
        if is_vss_available st1 then
          insert_vector pyhash st1 occupation.code (occupation.embedding.getD [])
        else if is_fallback_vector_available st1 then
          insert_fallback_vector st1 occupation.code (occupation.embedding.getD [])
        else st1
      else st1
    (true, st2)

/-- Model of `OccupationCRUD._row_to_occupation`.  Python's `x or []` (resp.
`x or {}`) replaces both `None` and the falsy empty container by the default;
since the default equals the only falsy container, this is `Option.getD`. -/
def row_to_occupation (row : OccRow) : Occupation :=
  { code := row.code
    title := row.title
    description := row.description
    division := row.division
    major_group := row.major_group
    sub_major_group := row.sub_major_group
    minor_group := row.minor_group
    unit_group := row.unit_group
    keywords := some ((DatabaseManager.deserialize_json row.keywords).getD [])
    synonyms := some ((DatabaseManager.deserialize_json row.synonyms).getD [])
    embedding := DatabaseManager.deserialize_embedding row.embedding
    created_at := row.created_at
    updated_at := row.updated_at }

/-- Model of `OccupationCRUD.get_by_code`:
`SELECT * FROM occupations WHERE code = ?`, first row converted, `None` when
no row matches. -/
def get_by_code (st : DBState) (code : String) : Option Occupation :=
  (st.occupations.find? (fun r => r.code == code)).map row_to_occupation

end OccupationCRUD

namespace OccupationCRUD

/-- Column selector for `get_by_hierarchy`: the level name is first checked
against `valid_levels` and then spliced into `WHERE {level} = ?`; each valid
name denotes the row column of the same name. -/
def hierarchyColumn (level : String) : Option (OccRow → String) :=
  if level == "division" then some OccRow.division
  else if level == "major_group" then some OccRow.major_group
  else if level == "sub_major_group" then some OccRow.sub_major_group
  else if level == "minor_group" then some OccRow.minor_group
  else if level == "unit_group" then some OccRow.unit_group
  else none

/-- Sort key of a TEXT column under SQLite's binary collation (memcmp of the
UTF-8 bytes; UTF-8 preserves code-point order, so the code-point sequence
carries the same order). -/
def textKey (s : String) : List Nat :=
  s.data.map Char.toNat

/-- Ordering used by `ORDER BY code`. -/
def codeLE (a b : OccRow) : Prop :=
  textKey a.code ≤ textKey b.code

instance : DecidableRel codeLE :=
  fun a b => inferInstanceAs (Decidable (textKey a.code ≤ textKey b.code))

/-- Model of `OccupationCRUD.get_by_hierarchy`: an invalid level raises
`ValueError`, which the surrounding handler converts to `[]`; a valid level
runs `SELECT * FROM occupations WHERE {level} = ? ORDER BY code`. -/
def get_by_hierarchy (st : DBState) (level value : String) : List Occupation :=
  match hierarchyColumn level with
  | none => []
  | some col =>
      (((st.occupations.filter (fun r => col r == value)).insertionSort codeLE).map
        row_to_occupation)

end OccupationCRUD

/-- ASCII case folding used by SQLite `LIKE` (case-insensitive for A-Z only). -/
def likeFold (c : Char) : Char :=
  if 'A' ≤ c ∧ c ≤ 'Z' then Char.ofNat (c.toNat + 32) else c

/-- All suffixes of a character list, longest first, down to `[]`. -/
def suffixes : List Char → List (List Char)
  | [] => [[]]
  | c :: cs => (c :: cs) :: suffixes cs

/-- SQLite `LIKE` pattern matching over character lists: `%` matches any
sequence (including empty), `_` matches any single character, any other
pattern character matches case-insensitively (ASCII). -/
def likeMatchL : List Char → List Char → Bool
  | [], s => s.isEmpty
  | '%' :: ps, s => (suffixes s).any (fun t => likeMatchL ps t)
  | '_' :: ps, s =>
      match s with
      | [] => false
      | _ :: cs => likeMatchL ps cs
  | c :: ps, s =>
      match s with
      | [] => false
      | d :: cs => (likeFold c == likeFold d) && likeMatchL ps cs

/-- String-level `LIKE`. -/
def likeMatch (pat s : String) : Bool :=
  likeMatchL pat.data s.data

/-- SQL `LIMIT n`: a negative limit means no limit in SQLite. -/
def sqlLimit {α : Type} (n : Int) (l : List α) : List α :=
  if n < 0 then l else l.take n.toNat

/-- SQL `OFFSET k`: a negative offset is treated as zero (`Int.toNat`
clamps). -/
def sqlOffset {α : Type} (k : Int) (l : List α) : List α :=
  l.drop k.toNat

namespace OccupationCRUD

/-- Row filter of `search_by_title`:
`WHERE title LIKE '%p%' OR description LIKE '%p%'`. -/
def searchPred (title_pattern : String) (r : OccRow) : Bool :=
  likeMatch ("%" ++ title_pattern ++ "%") r.title ||
    likeMatch ("%" ++ title_pattern ++ "%") r.description

/-- Rank of a row in `search_by_title`:
`CASE WHEN title LIKE 'p%' THEN 1 ELSE 2 END`. -/
def searchRank (title_pattern : String) (r : OccRow) : Nat :=
  if likeMatch (title_pattern ++ "%") r.title then 1 else 2

/-- Composite sort key of `search_by_title` (`ORDER BY rank, code`). -/
def searchKey (title_pattern : String) (r : OccRow) : Lex (Nat × List Nat) :=
  toLex (searchRank title_pattern r, textKey r.code)

/-- Ordering relation induced by `searchKey`. -/
def searchLE (title_pattern : String) (a b : OccRow) : Prop :=
  searchKey title_pattern a ≤ searchKey title_pattern b

instance (title_pattern : String) : DecidableRel (searchLE title_pattern) :=
  fun a b =>
    inferInstanceAs (Decidable (searchKey title_pattern a ≤ searchKey title_pattern b))

/-- Row-level result of `search_by_title`: filter, sort by (rank, code),
apply `LIMIT`. -/
def searchRowsOf (st : DBState) (title_pattern : String) (limit : Int) : List OccRow :=
  sqlLimit limit
    ((st.occupations.filter (searchPred title_pattern)).insertionSort (searchLE title_pattern))

/-- Model of `OccupationCRUD.search_by_title`. -/
def search_by_title (st : DBState) (title_pattern : String) (limit : Int) :
    List Occupation :=
  (searchRowsOf st title_pattern limit).map row_to_occupation

/-- Primitive storage operations recorded by `delete`, in execution order. -/
inductive DelOp where
  | vec : DelOp
  | row : DelOp
deriving DecidableEq, Repr

/-- Model of `OccupationCRUD._delete_vector`:
`DELETE FROM occupation_vectors WHERE rowid = hash(code) % 2**31`. -/
def delete_vector (pyhash : String → Int) (st : DBState) (code : String) : DBState :=
  match st.native_vectors with
  | none => st
  | some tbl =>
      { st with
          native_vectors :=
            some (tbl.filter (fun e => !(e.1 == vssRowid pyhash code))) }

/-- Model of `OccupationCRUD._delete_fallback_vector`:
`DELETE FROM occupation_vectors_fallback WHERE occupation_code = ?`. -/
def delete_fallback_vector (st : DBState) (code : String) : DBState :=
  match st.fallback_vectors with
  | none => st
  | some tbl =>
      { st with
          fallback_vectors := some (tbl.filter (fun e => !(e.1 == code))) }

/-- The `DELETE FROM occupations WHERE code = ?` statement: returns the
affected-row count and cascades into `occupation_vectors_fallback`
(`ON DELETE CASCADE`) when rows were actually deleted. -/
def deleteOccRow (st : DBState) (code : String) : Nat × DBState :=
  let removed := (st.occupations.filter (fun r => r.code == code)).length
  let st1 : DBState :=
    { st with occupations := st.occupations.filter (fun r => !(r.code == code)) }
  let st2 :=
    if removed > 0 then
      match st1.fallback_vectors with
      | none => st1
      | some tbl =>
          { st1 with fallback_vectors := some (tbl.filter (fun e => !(e.1 == code))) }
    else st1
  (removed, st2)

/-- Model of `OccupationCRUD.delete`: removes the vector entry first (native
table preferred, else fallback table, else nothing), then deletes the
occupation row; returns `rows_affected > 0`.  The trace records the order of
the two storage steps. -/
def delete (pyhash : String → Int) (st : DBState) (code : String) :
    Bool × DBState × List DelOp :=
  let vecStep :=
    if is_vss_available st then (delete_vector pyhash st code, [DelOp.vec])
    else if is_fallback_vector_available st then
      (delete_fallback_vector st code, [DelOp.vec])
    else (st, [])
  let rowStep := deleteOccRow vecStep.1 code
  (rowStep.1 > 0, rowStep.2, vecStep.2 ++ [DelOp.row])

/-- Model of `OccupationCRUD.get_all`: `SELECT * FROM occupations ORDER BY
code`, with `LIMIT {limit} OFFSET {offset}` appended only when `limit` is not
`None`. -/
def get_all (st : DBState) (limit : Option Int) (offset : Int) : List Occupation :=
  let sortedRows := st.occupations.insertionSort codeLE
  match limit with
  | none => sortedRows.map row_to_occupation
  | some n => (sqlLimit n (sqlOffset offset sortedRows)).map row_to_occupation

end OccupationCRUD

/-- The `UserQuery` dataclass (`app/models/search.py`) as `create_query`
consumes it.  The `results` list is represented by the JSON text that
`serialize_json([r.to_dict() for r in results])` produces for it; no claim
and no reader of the code ever reconstructs it. -/
structure UserQuery where
  query_id : String
  original_text : String
  processed_text : Option String
  language : String
  user_id : Option String
  session_id : String
  timestamp : Option String
  results_text : String
  selected_result : Option String := none
  feedback_rating : Option Int := none
deriving DecidableEq, Repr

namespace SearchQueryCRUD

/-- The `CHECK (feedback_rating BETWEEN 1 AND 5)` column constraint; a SQL
NULL passes a CHECK. -/
def ratingOk (r : Option Int) : Bool :=
  match r with
  | none => true
  | some n => decide (1 ≤ n) && decide (n ≤ 5)

/-- Model of `SearchQueryCRUD.create_query`: inserts one row; a PRIMARY KEY
conflict on `query_id` or a CHECK violation raises `IntegrityError`, which
the handler converts to `(False, unchanged)`. -/
def create_query (st : DBState) (user_query : UserQuery) : Bool × DBState :=
  if st.queries.any (fun q => q.query_id == user_query.query_id) then (false, st)
  else if !(ratingOk user_query.feedback_rating) then (false, st)
  else
    let row : QueryRow :=
      { query_id := user_query.query_id
        original_text := user_query.original_text
        processed_text := user_query.processed_text
        language := user_query.language
        user_id := user_query.user_id
        session_id := user_query.session_id
        timestamp := user_query.timestamp
        results := some user_query.results_text
        selected_result := user_query.selected_result
        feedback_rating := user_query.feedback_rating }
    (true, { st with queries := st.queries ++ [row] })

/-- Model of `SearchQueryCRUD.update_feedback`: the UPDATE statement is built
from the supplied fields only; with neither field supplied the method returns
`True` without touching the database.  Otherwise
`UPDATE search_queries SET ... WHERE query_id = ?` runs; the CHECK constraint
rejects an out-of-range supplied rating when a row actually matches, and the
result is `rows_affected > 0`. -/
def update_feedback (st : DBState) (query_id : String)
    (selected_result : Option String) (feedback_rating : Option Int) :
    Bool × DBState :=
  if selected_result.isNone && feedback_rating.isNone then (true, st)
  else
    let hit := st.queries.any (fun q => q.query_id == query_id)
    if hit && !(ratingOk feedback_rating) then (false, st)
    else
      let applyRow := fun (q : QueryRow) =>
        if q.query_id == query_id then
          { q with
              selected_result :=
                match selected_result with
                | none => q.selected_result
                | some v => some v
              feedback_rating :=
                match feedback_rating with
                | none => q.feedback_rating
                | some v => some v }
        else q
      (hit, { st with queries := st.queries.map applyRow })

/-- The analytics mapping returned by `get_analytics` (when its SQL runs). -/
structure AnalyticsResult where
  total_queries : Nat
  queries_by_language : List (String × Nat)
  average_rating : Rat
  rated_queries : Nat
  date_range_start : Option String
  date_range_end : Option String
deriving DecidableEq, Repr

/-- Timestamp filter of `get_analytics`: inclusive bounds; a SQL NULL
timestamp satisfies no comparison. -/
def tsInRange (start_date end_date : Option String) (q : QueryRow) : Bool :=
  (match start_date, q.timestamp with
   | none, _ => true
   | some s, some t => decide (OccupationCRUD.textKey s ≤ OccupationCRUD.textKey t)
   | some _, none => false) &&
  (match end_date, q.timestamp with
   | none, _ => true
   | some e, some t => decide (OccupationCRUD.textKey t ≤ OccupationCRUD.textKey e)
   | some _, none => false)

/-- Model of `SearchQueryCRUD.get_analytics`.  The rating query is the
f-string `... FROM search_queries {where_clause} AND feedback_rating IS NOT
NULL`; when both bounds are absent `where_clause` is empty, the SQL is
malformed (`FROM search_queries  AND ...`), `execute_query` raises
`OperationalError` and the handler returns the empty dict, modelled as
`none`.  With at least one bound the statement is well formed:
`average_rating` is `AVG(feedback_rating)` over the filtered rows (SQL NULL
when no rating exists, and Python then substitutes `0` through the `x if x
else 0` truthiness test, which also maps an exact average of 0 to 0). -/
def get_analytics (st : DBState) (start_date end_date : Option String) :
    Option AnalyticsResult :=
  let conditionsCount :=
    (if start_date.isSome then 1 else 0) + (if end_date.isSome then 1 else 0)
  if conditionsCount == 0 then none
  else
    let filtered := st.queries.filter (tsInRange start_date end_date)
    let ratings : List Int := filtered.filterMap (fun q => q.feedback_rating)
    let avg : Rat :=
      if ratings.isEmpty then 0
      else ((ratings.map (fun n => (n : Rat))).sum) / (ratings.length : Rat)
    some
      { total_queries := filtered.length
        queries_by_language :=
          ((filtered.map (fun q => q.language)).dedup).map
            (fun l => (l, (filtered.filter (fun q => q.language == l)).length))
        average_rating := if avg = 0 then 0 else avg
        rated_queries := ratings.length
        date_range_start := start_date
        date_range_end := end_date }

end SearchQueryCRUD

/-- Table-existence state of the schema manager (`schema.py`). -/
structure SchemaState where
  occupations_tbl : Bool := false
  search_queries_tbl : Bool := false
  user_sessions_tbl : Bool := false
  occupation_vectors_tbl : Bool := false
  occupation_vectors_fallback_tbl : Bool := false
deriving DecidableEq, Repr

/-- Model of `schema.create_tables`.  The three core `CREATE TABLE IF NOT
EXISTS` statements always succeed on usable storage.  Then `CREATE VIRTUAL
TABLE IF NOT EXISTS occupation_vectors USING vss0(...)` succeeds when the
extension is loaded, and also when the table already exists (`IF NOT EXISTS`
returns before the module is instantiated); otherwise it raises and the
plain fallback table is created instead.  Nothing ever drops either vector
table.  Index and trigger creation does not change table existence, and the
function returns `True`. -/
def create_tables (vss_loaded : Bool) (st : SchemaState) : Bool × SchemaState :=
  let st1 : SchemaState :=
    { st with
        occupations_tbl := true
        search_queries_tbl := true
        user_sessions_tbl := true }
  let st2 :=
    if vss_loaded || st1.occupation_vectors_tbl then
      { st1 with occupation_vectors_tbl := true }
    else
      { st1 with occupation_vectors_fallback_tbl := true }
  (true, st2)

theorem f32sToBytes_cons (x : Nat) (v : List Nat) :
    f32sToBytes (x :: v) = f32leBytes x ++ f32sToBytes v := by
  simp [f32sToBytes]

theorem f32sToBytes_length (v : List Nat) :
    (f32sToBytes v).length = 4 * v.length := by
  induction v with
  | nil => rfl
  | cons x v ih =>
      rw [f32sToBytes_cons, List.length_append, ih]
      simp [f32leBytes]
      omega

theorem bytesToF32s_f32sToBytes (v : List Nat) (h : ∀ x ∈ v, x < 2 ^ 32) :
    bytesToF32s (f32sToBytes v) = v := by
  induction v with
  | nil => rfl
  | cons x v ih =>
      have hx : x < 2 ^ 32 := h x (by simp)
      rw [f32sToBytes_cons]
      simp only [f32leBytes, List.cons_append, List.nil_append, bytesToF32s]
      rw [show List.append ([] : List Nat) (f32sToBytes v) = f32sToBytes v from rfl,
        ih (fun y hy => h y (by simp [hy]))]
      congr 1
      omega

/-- C4: for every float32 vector `v`, `deserialize_embedding` inverts
`serialize_embedding` element-for-element, the serialized form is exactly 4
bytes per element (32-bit little-endian words), and both codecs map `None`
to `None`. -/
theorem c4_embedding_codec_roundtrip (v : List Nat) (h : ∀ x ∈ v, x < 2 ^ 32) :
    DatabaseManager.deserialize_embedding (DatabaseManager.serialize_embedding (some v)) =
        some v ∧
    DatabaseManager.serialize_embedding (some v) = some (f32sToBytes v) ∧
    (f32sToBytes v).length = 4 * v.length ∧
    DatabaseManager.serialize_embedding none = none ∧
    DatabaseManager.deserialize_embedding none = none := by
  refine ⟨?_, rfl, f32sToBytes_length v, rfl, rfl⟩
  simp [DatabaseManager.serialize_embedding, DatabaseManager.deserialize_embedding,
    bytesToF32s_f32sToBytes v h]

theorem c4_embedding_codec_roundtrip_witness :
    DatabaseManager.deserialize_embedding
        (DatabaseManager.serialize_embedding (some [1078530011, 0, 4294967295])) =
      some [1078530011, 0, 4294967295] :=
  (c4_embedding_codec_roundtrip [1078530011, 0, 4294967295] (by decide)).1

/-- C10: creating an occupation whose code is already stored returns `False`
and leaves the database state - in particular the previously stored row -
completely unchanged. -/
theorem c10_create_duplicate_rejected (pyhash : String → Int) (st : DBState)
    (o : Occupation) (h : ∃ r ∈ st.occupations, r.code = o.code) :
    OccupationCRUD.create pyhash st o = (false, st) := by
  obtain ⟨r, hr, hcode⟩ := h
  have hany : st.occupations.any (fun r => r.code == o.code) = true := by
    rw [List.any_eq_true]
    exact ⟨r, hr, by simp [hcode]⟩
  unfold OccupationCRUD.create
  simp [hany]

def occA : Occupation :=
  { code := "12345678", title := "Data Engineer", description := "builds data pipelines",
    division := "1", major_group := "12", sub_major_group := "123",
    minor_group := "1234", unit_group := "12345",
    keywords := none, synonyms := some [("en", ["data wrangler"])],
    embedding := some [1078530011, 0],
    created_at := some "2024-01-01T00:00:00", updated_at := some "2024-01-01T00:00:00" }

theorem c10_create_duplicate_rejected_witness :
    OccupationCRUD.create (fun _ => 7)
        { occupations := [OccupationCRUD.insertParamsRow occA] } occA =
      (false, { occupations := [OccupationCRUD.insertParamsRow occA] }) :=
  c10_create_duplicate_rejected (fun _ => 7) _ occA
    ⟨OccupationCRUD.insertParamsRow occA, by simp, rfl⟩

theorem insert_vector_occupations (pyhash : String → Int) (st : DBState)
    (code : String) (emb : List Nat) :
    (OccupationCRUD.insert_vector pyhash st code emb).occupations = st.occupations := by
  unfold OccupationCRUD.insert_vector
  cases st.native_vectors with
  | none => rfl
  | some tbl =>
      by_cases h : tbl.any (fun e => e.1 == OccupationCRUD.vssRowid pyhash code) <;>
        simp [h]

theorem insert_fallback_vector_occupations (st : DBState) (code : String)
    (emb : List Nat) :
    (OccupationCRUD.insert_fallback_vector st code emb).occupations = st.occupations := by
  unfold OccupationCRUD.insert_fallback_vector
  cases st.fallback_vectors with
  | none => rfl
  | some tbl =>
      by_cases h : st.occupations.any (fun r => r.code == code) <;> simp [h]

theorem create_success_state (pyhash : String → Int) (st : DBState) (o : Occupation)
    (hany : st.occupations.any (fun r => r.code == o.code) = false) :
    (OccupationCRUD.create pyhash st o).1 = true ∧
    ((OccupationCRUD.create pyhash st o).2).occupations =
      st.occupations ++ [OccupationCRUD.insertParamsRow o] := by
  unfold OccupationCRUD.create
  simp only [hany, Bool.false_eq_true, if_false]
  refine ⟨trivial, ?_⟩
  split
  case isTrue =>
    split
    case isTrue => rw [insert_vector_occupations]
    case isFalse =>
      split
      case isTrue => rw [insert_fallback_vector_occupations]
      case isFalse => rfl
  case isFalse => rfl

theorem find?_append_left_none {α : Type} (p : α → Bool) (l₁ l₂ : List α)
    (h : ∀ a ∈ l₁, p a = false) : (l₁ ++ l₂).find? p = l₂.find? p := by
  induction l₁ with
  | nil => rfl
  | cons a l ih =>
      rw [List.cons_append, List.find?_cons_of_neg _ (by simp [h a (by simp)])]
      exact ih (fun a ha => h a (by simp [ha]))

/-- C1: creating a fresh valid occupation succeeds and `get_by_code` then
returns an occupation equal to it field-for-field (code, title, description,
the five hierarchy fields, keywords, synonyms), with the embedding recovered
bit-for-bit when present; `None` keywords/synonyms come back as the empty
list and empty mapping, without failing. -/
theorem c1_create_get_by_code_roundtrip (pyhash : String → Int) (st : DBState)
    (o : Occupation) (hfresh : ∀ r ∈ st.occupations, r.code ≠ o.code)
    (hf32 : ∀ v, o.embedding = some v → ∀ x ∈ v, x < 2 ^ 32) :
    (OccupationCRUD.create pyhash st o).1 = true ∧
    ∃ o', OccupationCRUD.get_by_code (OccupationCRUD.create pyhash st o).2 o.code =
        some o' ∧
      o'.code = o.code ∧ o'.title = o.title ∧ o'.description = o.description ∧
      o'.division = o.division ∧ o'.major_group = o.major_group ∧
      o'.sub_major_group = o.sub_major_group ∧ o'.minor_group = o.minor_group ∧
      o'.unit_group = o.unit_group ∧
      o'.keywords = some (o.keywords.getD []) ∧
      o'.synonyms = some (o.synonyms.getD []) ∧
      o'.embedding = o.embedding := by
  have hany : st.occupations.any (fun r => r.code == o.code) = false := by
    rw [List.any_eq_false]
    intro r hr
    simp [hfresh r hr]
  obtain ⟨hret, hocc⟩ := create_success_state pyhash st o hany
  refine ⟨hret, OccupationCRUD.row_to_occupation (OccupationCRUD.insertParamsRow o), ?_, ?_⟩
  · unfold OccupationCRUD.get_by_code
    rw [hocc, find?_append_left_none _ _ _ (fun r hr => by simp [hfresh r hr])]
    simp [List.find?, OccupationCRUD.insertParamsRow]
  · refine ⟨rfl, rfl, rfl, rfl, rfl, rfl, rfl, rfl, ?_, ?_, ?_⟩
    · cases hk : o.keywords <;>
        simp [OccupationCRUD.row_to_occupation, OccupationCRUD.insertParamsRow,
          DatabaseManager.serialize_json, DatabaseManager.deserialize_json, hk]
    · cases hs : o.synonyms <;>
        simp [OccupationCRUD.row_to_occupation, OccupationCRUD.insertParamsRow,
          DatabaseManager.serialize_json, DatabaseManager.deserialize_json, hs]
    · cases hemb : o.embedding with
      | none =>
          simp [OccupationCRUD.row_to_occupation, OccupationCRUD.insertParamsRow,
            DatabaseManager.serialize_embedding, DatabaseManager.deserialize_embedding, hemb]
      | some v =>
          simp [OccupationCRUD.row_to_occupation, OccupationCRUD.insertParamsRow,
            DatabaseManager.serialize_embedding, DatabaseManager.deserialize_embedding, hemb,
            bytesToF32s_f32sToBytes v (hf32 v hemb)]

theorem c1_create_get_by_code_roundtrip_witness :
    (OccupationCRUD.create (fun _ => 7) { fallback_vectors := some [] } occA).1 = true ∧
    ∃ o', OccupationCRUD.get_by_code
        (OccupationCRUD.create (fun _ => 7) { fallback_vectors := some [] } occA).2
        occA.code = some o' ∧
      o'.code = occA.code ∧ o'.title = occA.title ∧ o'.description = occA.description ∧
      o'.division = occA.division ∧ o'.major_group = occA.major_group ∧
      o'.sub_major_group = occA.sub_major_group ∧ o'.minor_group = occA.minor_group ∧
      o'.unit_group = occA.unit_group ∧
      o'.keywords = some (occA.keywords.getD []) ∧
      o'.synonyms = some (occA.synonyms.getD []) ∧
      o'.embedding = occA.embedding :=
  c1_create_get_by_code_roundtrip (fun _ => 7) { fallback_vectors := some [] } occA
    (fun r hr => absurd hr (List.not_mem_nil r))
    (fun v hv => by
      injection hv with hv
      subst hv
      decide)

/-- C2 counterexample: a first successful `create_tables` run without the
extension creates the fallback vector table; a rerun with the extension
available then also creates the native vector table and nothing ever drops
the fallback one, so after two successful runs both vector tables exist. -/
theorem c2_create_tables_rerun_both_tables :
    (create_tables false {}).1 = true ∧
    (create_tables true (create_tables false {}).2).1 = true ∧
    ((create_tables true (create_tables false {}).2).2).occupation_vectors_tbl = true ∧
    ((create_tables true (create_tables false {}).2).2).occupation_vectors_fallback_tbl =
      true := by
  decide

/-- C2 (amended): after a successful `create_tables` run on a database where
neither vector table exists yet, exactly one of the native and the fallback
vector tables exists, under either extension availability.  (A rerun under
changed availability can leave both tables existing, since `create_tables`
never removes the unused one.) -/
theorem c2_create_tables_exactly_one_vector_table (vss_loaded : Bool)
    (st : SchemaState) (hn : st.occupation_vectors_tbl = false)
    (hf : st.occupation_vectors_fallback_tbl = false) :
    (create_tables vss_loaded st).1 = true ∧
    (((create_tables vss_loaded st).2).occupation_vectors_tbl = true ∧
        ((create_tables vss_loaded st).2).occupation_vectors_fallback_tbl = false ∨
      ((create_tables vss_loaded st).2).occupation_vectors_tbl = false ∧
        ((create_tables vss_loaded st).2).occupation_vectors_fallback_tbl = true) := by
  unfold create_tables
  cases vss_loaded <;> simp [hn, hf]

theorem c2_create_tables_exactly_one_vector_table_witness :
    (create_tables true {}).1 = true ∧
    (((create_tables true {}).2).occupation_vectors_tbl = true ∧
        ((create_tables true {}).2).occupation_vectors_fallback_tbl = false ∨
      ((create_tables true {}).2).occupation_vectors_tbl = false ∧
        ((create_tables true {}).2).occupation_vectors_fallback_tbl = true) :=
  c2_create_tables_exactly_one_vector_table true {} rfl rfl

theorem sorted_insertionSort_codeLE (l : List OccRow) :
    (l.insertionSort OccupationCRUD.codeLE).Pairwise OccupationCRUD.codeLE := by
  haveI : IsTotal OccRow OccupationCRUD.codeLE := ⟨fun a b => le_total _ _⟩
  haveI : IsTrans OccRow OccupationCRUD.codeLE := ⟨fun a b c hab hbc => le_trans hab hbc⟩
  exact List.sorted_insertionSort _ l

/-- C9: with `limit` absent, `get_all` ignores `offset` entirely - the result
equals the `offset = 0` call and is the whole catalog sorted by code - while
with a numeric limit the offset takes effect through `LIMIT .. OFFSET ..`. -/
theorem c9_get_all_none_ignores_offset (st : DBState) (offset : Int) :
    OccupationCRUD.get_all st none offset = OccupationCRUD.get_all st none 0 ∧
    (∀ x, x ∈ OccupationCRUD.get_all st none offset ↔
        ∃ r ∈ st.occupations, x = OccupationCRUD.row_to_occupation r) ∧
    (OccupationCRUD.get_all st none offset).Pairwise
      (fun a b => OccupationCRUD.textKey a.code ≤ OccupationCRUD.textKey b.code) ∧
    (∀ n : Int, OccupationCRUD.get_all st (some n) offset =
        (sqlLimit n (sqlOffset offset (st.occupations.insertionSort OccupationCRUD.codeLE))).map
          OccupationCRUD.row_to_occupation) := by
  refine ⟨rfl, ?_, ?_, fun n => rfl⟩
  · intro x
    unfold OccupationCRUD.get_all
    simp only [List.mem_map, List.mem_insertionSort]
    constructor
    · rintro ⟨r, hr, rfl⟩
      exact ⟨r, hr, rfl⟩
    · rintro ⟨r, hr, rfl⟩
      exact ⟨r, hr, rfl⟩
  · unfold OccupationCRUD.get_all
    exact List.pairwise_map.mpr (sorted_insertionSort_codeLE st.occupations)

/-- C5: for each of the five valid hierarchy level names, `get_by_hierarchy`
returns exactly the stored occupations whose corresponding field equals the
value, sorted by code ascending; any other level name yields `[]` instead of
an error. -/
theorem c5_get_by_hierarchy_exact (st : DBState) (level value : String) :
    (∀ col, OccupationCRUD.hierarchyColumn level = some col →
        ((∀ x, x ∈ OccupationCRUD.get_by_hierarchy st level value ↔
            ∃ r ∈ st.occupations, col r = value ∧
              x = OccupationCRUD.row_to_occupation r) ∧
          (OccupationCRUD.get_by_hierarchy st level value).Pairwise
            (fun a b => OccupationCRUD.textKey a.code ≤ OccupationCRUD.textKey b.code))) ∧
    (OccupationCRUD.hierarchyColumn level = none →
      OccupationCRUD.get_by_hierarchy st level value = []) := by
  constructor
  · intro col hcol
    constructor
    · intro x
      unfold OccupationCRUD.get_by_hierarchy
      rw [hcol]
      simp only [List.mem_map, List.mem_insertionSort, List.mem_filter, beq_iff_eq]
      constructor
      · rintro ⟨r, ⟨hr, hv⟩, rfl⟩
        exact ⟨r, hr, hv, rfl⟩
      · rintro ⟨r, hr, hv, rfl⟩
        exact ⟨r, ⟨hr, hv⟩, rfl⟩
    · unfold OccupationCRUD.get_by_hierarchy
      rw [hcol]
      exact List.pairwise_map.mpr (sorted_insertionSort_codeLE _)
  · intro hcol
    unfold OccupationCRUD.get_by_hierarchy
    rw [hcol]

theorem c5_get_by_hierarchy_exact_witness :
    (∀ x, x ∈ OccupationCRUD.get_by_hierarchy
        { occupations := [OccupationCRUD.insertParamsRow occA] } "division" "1" ↔
      ∃ r ∈ [OccupationCRUD.insertParamsRow occA], r.division = "1" ∧
        x = OccupationCRUD.row_to_occupation r) ∧
    (OccupationCRUD.get_by_hierarchy
        { occupations := [OccupationCRUD.insertParamsRow occA] } "division" "1").Pairwise
      (fun a b => OccupationCRUD.textKey a.code ≤ OccupationCRUD.textKey b.code) :=
  (c5_get_by_hierarchy_exact { occupations := [OccupationCRUD.insertParamsRow occA] }
      "division" "1").1 OccRow.division (by simp [OccupationCRUD.hierarchyColumn])

/-- Fixture: one recorded query as the analytics test stores it. -/
def sampleQuery (query_id language : String) (feedback_rating : Option Int) : UserQuery :=
  { query_id := query_id, original_text := "test query",
    processed_text := some "test query", language := language,
    user_id := some "user-123", session_id := "analytics-session",
    timestamp := some "2024-03-01T10:00:00", results_text := "[]",
    feedback_rating := feedback_rating }

/-- Fixture: the database after recording four queries with ratings
`[5, 4, None, 3]`, as in the repository's own `test_get_analytics`. -/
def analyticsState : DBState :=
  (SearchQueryCRUD.create_query
    (SearchQueryCRUD.create_query
      (SearchQueryCRUD.create_query
        (SearchQueryCRUD.create_query {} (sampleQuery "q0" "en" (some 5))).2
        (sampleQuery "q1" "hi" (some 4))).2
      (sampleQuery "q2" "en" none)).2
    (sampleQuery "q3" "ta" (some 3))).2

/-- C3: with four stored queries rated `[5, 4, None, 3]`, `get_analytics`
called with no date bounds does NOT return the claimed mapping: its rating
query is the f-string `... FROM search_queries {where_clause} AND
feedback_rating IS NOT NULL` with an empty `where_clause`, which is
malformed SQL, so the method falls into its exception handler and returns
the empty dict (`none` here) instead of `total_queries=4, rated_queries=3,
average_rating=4.0`. -/
theorem c3_get_analytics_no_bounds_returns_empty :
    analyticsState.queries.length = 4 ∧
    analyticsState.queries.filterMap (fun q => q.feedback_rating) = [5, 4, 3] ∧
    SearchQueryCRUD.get_analytics analyticsState none none = none := by
  decide

theorem update_feedback_rating_only_queries (st : DBState) (query_id : String)
    (r : Int) (hOk : SearchQueryCRUD.ratingOk (some r) = true) :
    ((SearchQueryCRUD.update_feedback st query_id none (some r)).2).queries =
      st.queries.map (fun q =>
        if q.query_id == query_id then { q with feedback_rating := some r } else q) := by
  unfold SearchQueryCRUD.update_feedback
  simp only [Option.isNone_none, Option.isNone_some, Bool.and_false, Bool.false_eq_true,
    if_false, hOk, Bool.not_true, Bool.false_and, Bool.and_self]

/-- C6: `update_feedback` writes only the supplied fields - a call with
neither field is a no-op returning `True`, and two successive rating-only
calls leave the second rating persisted on the identified row with
`selected_result` untouched everywhere. -/
theorem c6_update_feedback_partial_update (st : DBState) (query_id : String)
    (r1 r2 : Int) (h1a : 1 ≤ r1) (h1b : r1 ≤ 5) (h2a : 1 ≤ r2) (h2b : r2 ≤ 5) :
    SearchQueryCRUD.update_feedback st query_id none none = (true, st) ∧
    ((SearchQueryCRUD.update_feedback
        (SearchQueryCRUD.update_feedback st query_id none (some r1)).2
        query_id none (some r2)).2).queries =
      st.queries.map (fun q =>
        if q.query_id == query_id then { q with feedback_rating := some r2 } else q) := by
  have hOk1 : SearchQueryCRUD.ratingOk (some r1) = true := by
    unfold SearchQueryCRUD.ratingOk
    simp [h1a, h1b]
  have hOk2 : SearchQueryCRUD.ratingOk (some r2) = true := by
    unfold SearchQueryCRUD.ratingOk
    simp [h2a, h2b]
  refine ⟨rfl, ?_⟩
  rw [update_feedback_rating_only_queries _ _ _ hOk2,
    update_feedback_rating_only_queries _ _ _ hOk1, List.map_map]
  apply List.map_congr_left
  intro q _
  by_cases hq : q.query_id = query_id <;> simp [hq]

/-- Fixture: one stored query row carrying an earlier `selected_result`. -/
def queryRowW : QueryRow :=
  { query_id := "q1", original_text := "weaver", processed_text := some "weaver",
    language := "en", user_id := none, session_id := "s1",
    timestamp := some "2024-03-01T10:00:00", results := some "[]",
    selected_result := some "11111111", feedback_rating := none }

theorem c6_update_feedback_partial_update_witness :
    SearchQueryCRUD.update_feedback { queries := [queryRowW] } "q1" none none =
      (true, { queries := [queryRowW] }) ∧
    ((SearchQueryCRUD.update_feedback
        (SearchQueryCRUD.update_feedback { queries := [queryRowW] } "q1" none (some 5)).2
        "q1" none (some 3)).2).queries =
      [queryRowW].map (fun q =>
        if q.query_id == "q1" then { q with feedback_rating := some 3 } else q) :=
  c6_update_feedback_partial_update { queries := [queryRowW] } "q1" 5 3
    (by decide) (by decide) (by decide) (by decide)

theorem delete_vector_occupations (pyhash : String → Int) (st : DBState) (code : String) :
    (OccupationCRUD.delete_vector pyhash st code).occupations = st.occupations := by
  unfold OccupationCRUD.delete_vector
  cases st.native_vectors <;> rfl

theorem delete_vector_fallback (pyhash : String → Int) (st : DBState) (code : String) :
    (OccupationCRUD.delete_vector pyhash st code).fallback_vectors = st.fallback_vectors := by
  unfold OccupationCRUD.delete_vector
  cases st.native_vectors <;> rfl

theorem delete_fallback_vector_occupations (st : DBState) (code : String) :
    (OccupationCRUD.delete_fallback_vector st code).occupations = st.occupations := by
  unfold OccupationCRUD.delete_fallback_vector
  cases st.fallback_vectors <;> rfl

theorem delete_fallback_vector_native (st : DBState) (code : String) :
    (OccupationCRUD.delete_fallback_vector st code).native_vectors = st.native_vectors := by
  unfold OccupationCRUD.delete_fallback_vector
  cases st.fallback_vectors <;> rfl

theorem delete_fallback_vector_clean (st : DBState) (code : String) :
    ∀ tbl, (OccupationCRUD.delete_fallback_vector st code).fallback_vectors = some tbl →
      ∀ e ∈ tbl, e.1 ≠ code := by
  unfold OccupationCRUD.delete_fallback_vector
  cases hfb : st.fallback_vectors with
  | none =>
      intro tbl htbl
      exact absurd htbl (by simp [hfb])
  | some tbl0 =>
      intro tbl htbl e he
      simp only [Option.some.injEq] at htbl
      subst htbl
      have := (List.mem_filter.mp he).2
      simp at this
      exact this

theorem deleteOccRow_occupations (st : DBState) (code : String) :
    ((OccupationCRUD.deleteOccRow st code).2).occupations =
      st.occupations.filter (fun r => !(r.code == code)) := by
  unfold OccupationCRUD.deleteOccRow
  dsimp only
  split
  · split <;> rfl
  · rfl

theorem deleteOccRow_native (st : DBState) (code : String) :
    ((OccupationCRUD.deleteOccRow st code).2).native_vectors = st.native_vectors := by
  unfold OccupationCRUD.deleteOccRow
  dsimp only
  split
  · split <;> rfl
  · rfl

theorem deleteOccRow_fallback_clean (st : DBState) (code : String)
    (hrow : st.occupations.any (fun r => r.code == code) = true) :
    ∀ tbl, ((OccupationCRUD.deleteOccRow st code).2).fallback_vectors = some tbl →
      ∀ e ∈ tbl, e.1 ≠ code := by
  have hpos : 0 < (st.occupations.filter (fun r => r.code == code)).length := by
    rw [List.any_eq_true] at hrow
    obtain ⟨r, hr, hp⟩ := hrow
    exact List.length_pos.mpr (List.ne_nil_of_mem (List.mem_filter.mpr ⟨hr, hp⟩))
  unfold OccupationCRUD.deleteOccRow
  dsimp only
  rw [if_pos hpos]
  cases st.fallback_vectors with
  | none =>
      intro tbl htbl
      exact absurd htbl (by simp)
  | some tbl0 =>
      intro tbl htbl e he
      simp only [Option.some.injEq] at htbl
      subst htbl
      have := (List.mem_filter.mp he).2
      simp at this
      exact this

theorem deleteOccRow_fallback_mono (st : DBState) (code : String)
    (h : ∀ tbl, st.fallback_vectors = some tbl → ∀ e ∈ tbl, e.1 ≠ code) :
    ∀ tbl, ((OccupationCRUD.deleteOccRow st code).2).fallback_vectors = some tbl →
      ∀ e ∈ tbl, e.1 ≠ code := by
  unfold OccupationCRUD.deleteOccRow
  dsimp only
  split
  · split
    next hfb =>
      exact fun tbl htbl => h tbl htbl
    next tbl0 hfb =>
      intro tbl htbl e he
      simp only [Option.some.injEq] at htbl
      subst htbl
      exact h tbl0 hfb e (List.mem_filter.mp he).1
  · exact h

theorem native_none_of_not_vss (st : DBState)
    (h : OccupationCRUD.is_vss_available st = false) : st.native_vectors = none := by
  unfold OccupationCRUD.is_vss_available at h
  cases hn : st.native_vectors with
  | none => rfl
  | some tbl =>
      rw [hn] at h
      exact absurd h (by simp)

theorem delete_occupations (pyhash : String → Int) (st : DBState) (code : String) :
    ((OccupationCRUD.delete pyhash st code).2.1).occupations =
      st.occupations.filter (fun r => !(r.code == code)) := by
  unfold OccupationCRUD.delete
  dsimp only
  by_cases h1 : OccupationCRUD.is_vss_available st
  · simp only [h1, if_true]
    rw [deleteOccRow_occupations, delete_vector_occupations]
  · by_cases h2 : OccupationCRUD.is_fallback_vector_available st
    · simp only [h1, h2, Bool.false_eq_true, if_false, if_true]
      rw [deleteOccRow_occupations, delete_fallback_vector_occupations]
    · simp only [h1, h2, Bool.false_eq_true, if_false]
      rw [deleteOccRow_occupations]

theorem delete_native_clean (pyhash : String → Int) (st : DBState) (code : String) :
    ∀ tbl, ((OccupationCRUD.delete pyhash st code).2.1).native_vectors = some tbl →
      ∀ e ∈ tbl, e.1 ≠ OccupationCRUD.vssRowid pyhash code := by
  unfold OccupationCRUD.delete
  dsimp only
  by_cases h1 : OccupationCRUD.is_vss_available st
  · simp only [h1, if_true]
    rw [deleteOccRow_native]
    obtain ⟨tbl0, hn⟩ := Option.isSome_iff_exists.mp h1
    unfold OccupationCRUD.delete_vector
    rw [hn]
    intro tbl htbl e he
    simp only [Option.some.injEq] at htbl
    subst htbl
    have := (List.mem_filter.mp he).2
    simp at this
    exact this
  · have hn := native_none_of_not_vss st (Bool.eq_false_iff.mpr h1)
    by_cases h2 : OccupationCRUD.is_fallback_vector_available st
    · simp only [h1, h2, Bool.false_eq_true, if_false, if_true]
      rw [deleteOccRow_native, delete_fallback_vector_native, hn]
      intro tbl htbl
      exact absurd htbl (by simp)
    · simp only [h1, h2, Bool.false_eq_true, if_false]
      rw [deleteOccRow_native, hn]
      intro tbl htbl
      exact absurd htbl (by simp)

theorem delete_fallback_clean (pyhash : String → Int) (st : DBState) (code : String)
    (hrow : st.occupations.any (fun r => r.code == code) = true) :
    ∀ tbl, ((OccupationCRUD.delete pyhash st code).2.1).fallback_vectors = some tbl →
      ∀ e ∈ tbl, e.1 ≠ code := by
  unfold OccupationCRUD.delete
  dsimp only
  by_cases h1 : OccupationCRUD.is_vss_available st
  · simp only [h1, if_true]
    apply deleteOccRow_fallback_clean
    rw [delete_vector_occupations]
    exact hrow
  · by_cases h2 : OccupationCRUD.is_fallback_vector_available st
    · simp only [h1, h2, Bool.false_eq_true, if_false, if_true]
      exact deleteOccRow_fallback_mono _ _ (delete_fallback_vector_clean st code)
    · simp only [h1, h2, Bool.false_eq_true, if_false]
      apply deleteOccRow_fallback_mono
      intro tbl htbl
      unfold OccupationCRUD.is_fallback_vector_available at h2
      rw [htbl] at h2
      exact absurd h2 (by simp)

theorem delete_trace (pyhash : String → Int) (st : DBState) (code : String) :
    (OccupationCRUD.delete pyhash st code).2.2 =
      (if OccupationCRUD.is_vss_available st ||
          OccupationCRUD.is_fallback_vector_available st
        then [OccupationCRUD.DelOp.vec] else []) ++ [OccupationCRUD.DelOp.row] := by
  unfold OccupationCRUD.delete
  by_cases h1 : OccupationCRUD.is_vss_available st <;>
    by_cases h2 : OccupationCRUD.is_fallback_vector_available st <;>
      simp [h1, h2]

/-- C7: after `create(o)` on a catalog not containing `o.code` followed by
`delete(o.code)`, `get_by_code(o.code)` is absent, no native vector row with
the derived rowid `hash(code) % 2**31` remains, no fallback vector row keyed
by the code remains, and the recorded trace shows the vector-entry removal
strictly before the occupation-row deletion. -/
theorem c7_create_delete_leaves_nothing (pyhash : String → Int) (st : DBState)
    (o : Occupation) (hfresh : ∀ r ∈ st.occupations, r.code ≠ o.code) :
    OccupationCRUD.get_by_code
        (OccupationCRUD.delete pyhash (OccupationCRUD.create pyhash st o).2 o.code).2.1
        o.code = none ∧
    (∀ tbl, ((OccupationCRUD.delete pyhash (OccupationCRUD.create pyhash st o).2
          o.code).2.1).native_vectors = some tbl →
        ∀ e ∈ tbl, e.1 ≠ OccupationCRUD.vssRowid pyhash o.code) ∧
    (∀ tbl, ((OccupationCRUD.delete pyhash (OccupationCRUD.create pyhash st o).2
          o.code).2.1).fallback_vectors = some tbl →
        ∀ e ∈ tbl, e.1 ≠ o.code) ∧
    (OccupationCRUD.delete pyhash (OccupationCRUD.create pyhash st o).2 o.code).2.2 =
      (if OccupationCRUD.is_vss_available (OccupationCRUD.create pyhash st o).2 ||
          OccupationCRUD.is_fallback_vector_available (OccupationCRUD.create pyhash st o).2
        then [OccupationCRUD.DelOp.vec] else []) ++ [OccupationCRUD.DelOp.row] := by
  have hany : st.occupations.any (fun r => r.code == o.code) = false := by
    rw [List.any_eq_false]
    intro r hr
    simp [hfresh r hr]
  obtain ⟨hret, hocc⟩ := create_success_state pyhash st o hany
  have hrow : ((OccupationCRUD.create pyhash st o).2).occupations.any
      (fun r => r.code == o.code) = true := by
    rw [hocc, List.any_append]
    simp [OccupationCRUD.insertParamsRow]
  refine ⟨?_, delete_native_clean pyhash _ o.code,
    delete_fallback_clean pyhash _ o.code hrow, delete_trace pyhash _ o.code⟩
  unfold OccupationCRUD.get_by_code
  rw [delete_occupations]
  rw [Option.map_eq_none', List.find?_eq_none]
  intro x hx
  have := (List.mem_filter.mp hx).2
  simp at this
  simp [this]

theorem c7_create_delete_leaves_nothing_witness :
    OccupationCRUD.get_by_code
        (OccupationCRUD.delete (fun _ => 7)
          (OccupationCRUD.create (fun _ => 7) { native_vectors := some [] } occA).2
          occA.code).2.1 occA.code = none ∧
    (∀ tbl, ((OccupationCRUD.delete (fun _ => 7)
          (OccupationCRUD.create (fun _ => 7) { native_vectors := some [] } occA).2
          occA.code).2.1).native_vectors = some tbl →
        ∀ e ∈ tbl, e.1 ≠ OccupationCRUD.vssRowid (fun _ => 7) occA.code) ∧
    (∀ tbl, ((OccupationCRUD.delete (fun _ => 7)
          (OccupationCRUD.create (fun _ => 7) { native_vectors := some [] } occA).2
          occA.code).2.1).fallback_vectors = some tbl →
        ∀ e ∈ tbl, e.1 ≠ occA.code) ∧
    (OccupationCRUD.delete (fun _ => 7)
        (OccupationCRUD.create (fun _ => 7) { native_vectors := some [] } occA).2
        occA.code).2.2 =
      (if OccupationCRUD.is_vss_available
            (OccupationCRUD.create (fun _ => 7) { native_vectors := some [] } occA).2 ||
          OccupationCRUD.is_fallback_vector_available
            (OccupationCRUD.create (fun _ => 7) { native_vectors := some [] } occA).2
        then [OccupationCRUD.DelOp.vec] else []) ++ [OccupationCRUD.DelOp.row] :=
  c7_create_delete_leaves_nothing (fun _ => 7) { native_vectors := some [] } occA
    (fun r hr => absurd hr (List.not_mem_nil r))

theorem sorted_searchRows (st : DBState) (title_pattern : String) (limit : Int) :
    (OccupationCRUD.searchRowsOf st title_pattern limit).Pairwise
      (OccupationCRUD.searchLE title_pattern) := by
  haveI : IsTotal OccRow (OccupationCRUD.searchLE title_pattern) :=
    ⟨fun a b => le_total _ _⟩
  haveI : IsTrans OccRow (OccupationCRUD.searchLE title_pattern) :=
    ⟨fun a b c hab hbc => le_trans hab hbc⟩
  have hsorted := List.sorted_insertionSort (OccupationCRUD.searchLE title_pattern)
    (st.occupations.filter (OccupationCRUD.searchPred title_pattern))
  unfold OccupationCRUD.searchRowsOf sqlLimit
  split
  · exact hsorted
  · exact hsorted.sublist (List.take_sublist _ _)

/-- C8: whenever a row whose title starts with the pattern and a row that
merely matches without its title starting with the pattern both appear in
the `search_by_title` result (both within the limit), the prefix-matching
row comes strictly earlier; the whole result is ordered by (rank, code), so
equal-rank rows are ordered by code ascending. -/
theorem c8_search_by_title_ranks_prefix_first (st : DBState)
    (title_pattern : String) (limit : Int) (a b : OccRow)
    (hA : likeMatch (title_pattern ++ "%") a.title = true)
    (hB : likeMatch (title_pattern ++ "%") b.title = false)
    (ha : a ∈ OccupationCRUD.searchRowsOf st title_pattern limit)
    (hb : b ∈ OccupationCRUD.searchRowsOf st title_pattern limit) :
    (∃ i j : Nat, i < j ∧
        (OccupationCRUD.searchRowsOf st title_pattern limit)[i]? = some a ∧
        (OccupationCRUD.searchRowsOf st title_pattern limit)[j]? = some b) ∧
    (OccupationCRUD.searchRowsOf st title_pattern limit).Pairwise
      (OccupationCRUD.searchLE title_pattern) ∧
    OccupationCRUD.search_by_title st title_pattern limit =
      (OccupationCRUD.searchRowsOf st title_pattern limit).map
        OccupationCRUD.row_to_occupation := by
  have hra : OccupationCRUD.searchRank title_pattern a = 1 := by
    unfold OccupationCRUD.searchRank
    rw [hA]
    rfl
  have hrb : OccupationCRUD.searchRank title_pattern b = 2 := by
    unfold OccupationCRUD.searchRank
    rw [hB]
    rfl
  have hcontra : ¬ OccupationCRUD.searchLE title_pattern b a := by
    intro hle
    unfold OccupationCRUD.searchLE OccupationCRUD.searchKey at hle
    rw [Prod.Lex.le_iff] at hle
    dsimp only at hle
    rw [hra, hrb] at hle
    rcases hle with h | ⟨h, _⟩ <;> omega
  obtain ⟨i, hi, hia⟩ := List.mem_iff_getElem.mp ha
  obtain ⟨j, hj, hjb⟩ := List.mem_iff_getElem.mp hb
  have hne : i ≠ j := by
    intro hij
    subst hij
    have hab : a = b := hia.symm.trans hjb
    rw [hab, hB] at hA
    exact absurd hA (by simp)
  have hij : i < j := by
    rcases Nat.lt_or_ge i j with hlt | hge
    · exact hlt
    · exfalso
      have hj_lt_i : j < i := lt_of_le_of_ne hge (Ne.symm hne)
      have hp := List.pairwise_iff_getElem.mp
        (sorted_searchRows st title_pattern limit) j i hj hi hj_lt_i
      rw [hia, hjb] at hp
      exact hcontra hp
  exact ⟨⟨i, j, hij, by rw [List.getElem?_eq_getElem hi, hia],
      by rw [List.getElem?_eq_getElem hj, hjb]⟩,
    sorted_searchRows st title_pattern limit, rfl⟩

/-- Fixture: a second occupation whose title merely contains the pattern. -/
def occB : Occupation :=
  { code := "23456789", title := "Big data clerk", description := "keeps records",
    division := "2", major_group := "23", sub_major_group := "234",
    minor_group := "2345", unit_group := "23456",
    keywords := some ["records"], synonyms := some [],
    embedding := none,
    created_at := some "2024-01-01T00:00:00", updated_at := some "2024-01-01T00:00:00" }

theorem c8_search_by_title_ranks_prefix_first_witness :
    (∃ i j : Nat, i < j ∧
        (OccupationCRUD.searchRowsOf
          { occupations := [OccupationCRUD.insertParamsRow occB,
              OccupationCRUD.insertParamsRow occA] } "Data" 10)[i]? =
          some (OccupationCRUD.insertParamsRow occA) ∧
        (OccupationCRUD.searchRowsOf
          { occupations := [OccupationCRUD.insertParamsRow occB,
              OccupationCRUD.insertParamsRow occA] } "Data" 10)[j]? =
          some (OccupationCRUD.insertParamsRow occB)) ∧
    (OccupationCRUD.searchRowsOf
        { occupations := [OccupationCRUD.insertParamsRow occB,
            OccupationCRUD.insertParamsRow occA] } "Data" 10).Pairwise
      (OccupationCRUD.searchLE "Data") ∧
    OccupationCRUD.search_by_title
        { occupations := [OccupationCRUD.insertParamsRow occB,
            OccupationCRUD.insertParamsRow occA] } "Data" 10 =
      (OccupationCRUD.searchRowsOf
        { occupations := [OccupationCRUD.insertParamsRow occB,
            OccupationCRUD.insertParamsRow occA] } "Data" 10).map
        OccupationCRUD.row_to_occupation :=
  c8_search_by_title_ranks_prefix_first
    { occupations := [OccupationCRUD.insertParamsRow occB,
        OccupationCRUD.insertParamsRow occA] } "Data" 10
    (OccupationCRUD.insertParamsRow occA) (OccupationCRUD.insertParamsRow occB)
    (by decide) (by decide) (by decide) (by decide)
